import Mathlib

/-!
Shallow embedding of `src/product-photo-studio (zero data)/app.py`: the credit
ledger, subscription reconciliation (Stripe webhook and post-checkout
confirmation), the generation orchestrator (`transform`), and the mobile
upload-token handoff.  Database rows are modelled as Lean structures, tables as
lists, and each Flask handler as a pure function from the relevant state and
request/external data to a result and a new state.
-/

namespace App

/-- Plan tiers, the keys of `PLAN_CREDITS` in `app.py`. -/
inductive Tier where
  | free
  | starter
  | creator
  | enterprise
  | legacy_pro
deriving DecidableEq, Repr

/-- `PLAN_CREDITS` dict (app.py lines 71-77). -/
def PLAN_CREDITS : Tier → Int
  | .free => 10000
  | .starter => 120000
  | .creator => 300000
  | .enterprise => 800000
  | .legacy_pro => 200000

/-- `CREDITS_PER_IMAGE = 500` (app.py line 69). -/
def CREDITS_PER_IMAGE : Int := 500

/-- `PRICE_ID_TO_TIER` dict (app.py lines 80-87), with the default
environment-variable values of the Stripe price ids. -/
def PRICE_ID_TO_TIER (p : String) : Option Tier :=
  if p = "price_starter_monthly" ∨ p = "price_starter_annual" then some .starter
  else if p = "price_creator_monthly" ∨ p = "price_creator_annual" then some .creator
  else if p = "price_enterprise_monthly" ∨ p = "price_enterprise_annual" then some .enterprise
  else none

/-- `PRICE_ID_TO_TIER.get(price_id, 'creator')` where `price_id` may be `None`
(app.py lines 365, 419, 442). -/
def tierOfPrice (p : Option String) : Tier :=
  (p.bind PRICE_ID_TO_TIER).getD .creator

/-- The `User` row (app.py lines 90-108), restricted to the fields the claims
are about. -/
structure Account where
  id : Int
  email : String
  generation_count : Int
  is_subscribed : Bool
  stripe_customer_id : Option String
  plan_tier : Tier
  credits_remaining : Int
  credits_limit : Int
deriving DecidableEq, Repr

/-- `ensure_stripe_customer` (app.py lines 160-166).  `freshId` is the id the
external `stripe.Customer.create` call would return.  Returns the updated
account and the returned customer id. -/
def ensure_stripe_customer (a : Account) (freshId : String) : Account × String :=
  match a.stripe_customer_id with
  | some cid => (a, cid)
  | none => ({ a with stripe_customer_id := some freshId }, freshId)

/-- First element of a list satisfying `p` (the `query.filter_by(...).first()`
pattern). -/
def findFirst (p : α → Prop) [DecidablePred p] : List α → Option α
  | [] => none
  | a :: as => if p a then some a else findFirst p as

/-- Update the first element satisfying `p` (a commit of mutations made to the
single row returned by `query.filter_by(...).first()`). -/
def updateFirst (p : α → Prop) [DecidablePred p] (f : α → α) : List α → List α
  | [] => []
  | a :: as => if p a then f a :: as else a :: updateFirst p f as

/-- Update the element at index `j` (a commit of mutations made to
`current_user`, identified by its position in the table). -/
def modifyIdx (f : α → α) : Nat → List α → List α
  | _, [] => []
  | 0, a :: as => f a :: as
  | n + 1, a :: as => a :: modifyIdx f n as

/-- The subscription grant performed identically at app.py lines 369-372,
423-426 and 448-451: set `is_subscribed = True`, `plan_tier = tier`, and both
credit fields to `PLAN_CREDITS[tier]`. -/
def applyGrant (tier : Tier) (a : Account) : Account :=
  { a with is_subscribed := true
           plan_tier := tier
           credits_remaining := PLAN_CREDITS tier
           credits_limit := PLAN_CREDITS tier }

/-- The revert-to-free branch of the subscription webhook (app.py lines
452-456). -/
def applyCancel (a : Account) : Account :=
  { a with is_subscribed := false
           plan_tier := .free
           credits_remaining := PLAN_CREDITS .free
           credits_limit := PLAN_CREDITS .free }

/-- The mutation of the `checkout.session.completed` webhook branch once the
price id has been retrieved (app.py lines 419-427): look the user up by
`stripe_customer_id` and grant the tier; no-op when no user matches. -/
def applyCheckout (w : List Account) (cid : String) (price : Option String) :
    List Account :=
  let tier := tierOfPrice price
  match findFirst (fun a => a.stripe_customer_id = some cid) w with
  | some _ => updateFirst (fun a => a.stripe_customer_id = some cid) (applyGrant tier) w
  | none => w

/-- The `customer.subscription.updated` / `deleted` webhook branch (app.py
lines 431-457). -/
def applySubscription (w : List Account) (cid : Option String)
    (price : Option String) (status : String) : List Account :=
  match cid with
  | none => w
  | some c =>
    let tier := tierOfPrice price
    let isActive := status = "active" ∨ status = "trialing"
    updateFirst (fun a => a.stripe_customer_id = some c)
      (fun a => if isActive then applyGrant tier a else applyCancel a) w

/-- Inbound Stripe events as seen by the webhook handler.  For a
`checkout.session.completed` event the handler re-retrieves the session's line
items from Stripe inside a `try`/`except`; `retrieve` is that external call's
outcome: `.ok price` on success, `.error ()` when it (or anything else in the
`try` block) raises. -/
inductive StripeEvent where
  | checkoutCompleted (cid : Option String) (retrieve : Except Unit (Option String))
  | subscriptionEvent (cid : Option String) (price : Option String) (status : String)
  | other

/-- `stripe_webhook` (app.py lines 398-459).  `sigValid` is whether
`stripe.Webhook.construct_event` accepts the signature.  Returns the HTTP
status code and the new user table. -/
def stripe_webhook (sigValid : Bool) (ev : StripeEvent) (w : List Account) :
    Nat × List Account :=
  if ¬sigValid then (400, w)
  else
    match ev with
    | .checkoutCompleted cid retrieve =>
      match cid with
      | none => (200, w)
      | some c =>
        match retrieve with
        | .error _ => (200, w)
        | .ok price => (200, applyCheckout w c price)
    | .subscriptionEvent cid price status => (200, applySubscription w cid price status)
    | .other => (200, w)

/-- `post_checkout` (app.py lines 342-386).  `cur` is the index of
`current_user` in the table when authenticated; `cid` and `price` are the
customer and price id carried by the retrieved checkout session.  A session
with no customer raises and is caught with no mutation (lines 356-357,
384-386). -/
def post_checkout (w : List Account) (cur : Option Nat) (cid : Option String)
    (price : Option String) : List Account :=
  match cid with
  | none => w
  | some c =>
    let tier := tierOfPrice price
    match findFirst (fun a => a.stripe_customer_id = some c) w with
    | some _ => updateFirst (fun a => a.stripe_customer_id = some c) (applyGrant tier) w
    | none =>
      match cur with
      | some j => modifyIdx (fun a => applyGrant tier { a with stripe_customer_id := some c }) j w
      | none => w

/-- A `Generation` row (app.py lines 117-122). -/
structure Generation where
  user_id : Int
  input_image_path : String
  output_image_path : String
deriving DecidableEq, Repr

/-- The state `transform` reads and writes: the current user's row and the
user's `Generation` rows (newest first). -/
structure TransformState where
  account : Account
  generations : List Generation
deriving DecidableEq, Repr

/-- One part of the external generation response
(`response.candidates[0].content.parts`, app.py lines 572-576); `inline_data`
carries the image bytes when present. -/
structure GenPart where
  inline_data : Option (List Nat)
deriving DecidableEq, Repr

/-- Outcome of the body of `transform`'s `try` block at its interaction points
with the outside world: `exnBeforeCall` for an exception raised before the
external generation call (invalid filename, file save or image open failure),
`exn` for one raised at or after it (network error, malformed image bytes,
output save failure), `parts l` for a response that yields the part list `l`. -/
inductive GenOutcome where
  | exnBeforeCall
  | exn
  | parts (l : List GenPart)
deriving DecidableEq, Repr

/-- The distinguishable outcomes of a `transform` request. -/
inductive TransformResult where
  | redirectSignup
  | insufficientCredits
  | noFile
  | generationFailed
  | success
deriving DecidableEq, Repr

/-- Result of `transform`: the outcome, the state after commit, and whether
the external generation collaborator was invoked. -/
structure TransformOut where
  result : TransformResult
  state : TransformState
  externalCalled : Bool
deriving DecidableEq, Repr

/-- `transform` (app.py lines 524-623).  `authed` is
`current_user.is_authenticated`; `file` is the uploaded file's filename if a
file was sent; `gen` is the outcome of the `try` block's external interactions;
`inPath` and `outPath` are the saved input/output artifact paths.  The credit
check happens before any mutation (lines 529-535); a raised exception is caught
with nothing committed (lines 601-603); on success the `Generation` row is
added and `credits_remaining = max(0, credits_remaining - CREDITS_PER_IMAGE)`,
`generation_count + 1` are committed together (lines 589-599). -/
def transform (st : TransformState) (authed : Bool) (file : Option String)
    (gen : GenOutcome) (inPath outPath : String) : TransformOut :=
  if ¬authed then ⟨.redirectSignup, st, false⟩
  else if st.account.credits_remaining < CREDITS_PER_IMAGE then
    ⟨.insufficientCredits, st, false⟩
  else
    match file with
    | none => ⟨.noFile, st, false⟩
    | some fname =>
      if fname = "" then ⟨.noFile, st, false⟩
      else
        match gen with
        | .exnBeforeCall => ⟨.generationFailed, st, false⟩
        | .exn => ⟨.generationFailed, st, true⟩
        | .parts l =>
          let image_parts := l.filterMap GenPart.inline_data
          if image_parts.isEmpty then ⟨.generationFailed, st, true⟩
          else
            ⟨.success,
             { account :=
                 { st.account with
                   credits_remaining :=
                     max 0 (st.account.credits_remaining - CREDITS_PER_IMAGE)
                   generation_count := st.account.generation_count + 1 }
               generations := ⟨st.account.id, inPath, outPath⟩ :: st.generations },
             true⟩

/-- The Credit Ledger `authorize` contract of the spec (section 4.1): a
read-only check that `credits_remaining >= cost`, realized inline in
`transform` by the rejection test at app.py line 530. -/
def authorize (a : Account) (cost : Int) : Bool :=
  cost ≤ a.credits_remaining

/-- One `transform` request's inputs (everything except the state). -/
structure TransformInput where
  authed : Bool
  file : Option String
  gen : GenOutcome
  inPath : String
  outPath : String

/-- Run a sequence of `transform` requests, threading the state. -/
def runTransforms (st : TransformState) : List TransformInput → TransformState
  | [] => st
  | i :: is => runTransforms (transform st i.authed i.file i.gen i.inPath i.outPath).state is

/-- A `MobileUploadToken` row (app.py lines 125-131). -/
structure MobileToken where
  token : String
  used : Bool
  image_path : Option String
  user_id : Option Int
deriving DecidableEq, Repr

/-- The distinguishable outcomes of a POST to `/mobile/upload/<token>`:
the 410 "Link expired or already used" page, the "Please choose a photo" flash
re-render, or the success render. -/
inductive DepositResult where
  | rejected410
  | flashNoFile
  | success
deriving DecidableEq, Repr

/-- `mobile_upload_post` (app.py lines 660-677).  `sf` is werkzeug's
`secure_filename`, abstracted as an arbitrary sanitizer; `file` is the
uploaded file's filename if a file was sent (an empty filename is falsy in the
source's `not f.filename` check). -/
def mobile_upload_post (sf : String → String) (toks : List MobileToken)
    (token : String) (file : Option String) : DepositResult × List MobileToken :=
  match findFirst (fun t => t.token = token) toks with
  | none => (.rejected410, toks)
  | some t =>
    if t.used then (.rejected410, toks)
    else
      match file with
      | none => (.flashNoFile, toks)
      | some fn =>
        if fn = "" then (.flashNoFile, toks)
        else
          let filename := if sf fn = "" then token ++ ".jpg" else sf fn
          let path := "/static/uploads/mobile_" ++ token ++ "_" ++ filename
          (.success,
           updateFirst (fun t => t.token = token)
             (fun t => { t with image_path := some path, used := true }) toks)

/-- Python's builtin `round` on an exact rational: round half to even. -/
def py_round (x : ℚ) : ℤ :=
  if x - Int.floor x < 1 / 2 then Int.floor x
  else if 1 / 2 < x - Int.floor x then Int.floor x + 1
  else if Even (Int.floor x) then Int.floor x else Int.floor x + 1

/-- The resize step of `transform` (app.py lines 556-564), on exact rationals:
`scale = 1024.0 / longest if longest != 0 else 1.0`,
`new_w = max(1, int(round(w * scale)))`, `new_h = max(1, int(round(h * scale)))`. -/
def resize (w h : Nat) : Int × Int :=
  let longest : Nat := max w h
  let scale : ℚ := if longest ≠ 0 then 1024 / (longest : ℚ) else 1
  (max 1 (py_round (w * scale)), max 1 (py_round (h * scale)))

/-- The `stripe_customer_id` stored at index `i` of the user table, `none` when
the index is out of range. -/
def cidAt (w : List Account) (i : Nat) : Option (Option String) :=
  w[i]?.map Account.stripe_customer_id

/-- The state of a fresh free-tier signup (app.py lines 242-248): tier `free`,
`credits_remaining = credits_limit = PLAN_CREDITS['free']`, no generations. -/
def freeState : TransformState :=
  { account := { id := 1
                 email := "u@example.com"
                 generation_count := 0
                 is_subscribed := false
                 stripe_customer_id := none
                 plan_tier := .free
                 credits_remaining := PLAN_CREDITS .free
                 credits_limit := PLAN_CREDITS .free }
    generations := [] }

/-- A request whose external interactions all succeed: a file is attached and
the generation response carries one inline image. -/
def okInput : TransformInput :=
  { authed := true
    file := some "p.jpg"
    gen := .parts [{ inline_data := some [7] }]
    inPath := "/static/uploads/in.jpg"
    outPath := "/static/outputs/out.png" }

/-- A free-tier state whose balance (250) is below `CREDITS_PER_IMAGE`. -/
def lowState : TransformState :=
  { account := { freeState.account with credits_remaining := 250 }
    generations := [] }

/-! Generic lemmas about `findFirst`, `updateFirst` and `modifyIdx`. -/

theorem findFirst_eq_none_forall {α : Type _} {p : α → Prop} [DecidablePred p]
    {l : List α} (h : findFirst p l = none) : ∀ a ∈ l, ¬ p a := by
  induction l with
  | nil => intro a ha; cases ha
  | cons a as ih =>
    by_cases hpa : p a
    · simp [findFirst, hpa] at h
    · intro b hb
      have h' : findFirst p as = none := by simpa [findFirst, hpa] using h
      rcases List.mem_cons.mp hb with rfl | hb
      · exact hpa
      · exact ih h' b hb

theorem findFirst_updateFirst {α : Type _} {p : α → Prop} [DecidablePred p]
    {f : α → α} (hp : ∀ a, p (f a) ↔ p a) (l : List α) :
    findFirst p (updateFirst p f l) = (findFirst p l).map f := by
  induction l with
  | nil => rfl
  | cons a as ih =>
    by_cases hpa : p a
    · simp [updateFirst, findFirst, hpa, (hp a).mpr hpa]
    · simp [updateFirst, findFirst, hpa, ih]

theorem updateFirst_idem {α : Type _} {p : α → Prop} [DecidablePred p]
    {f : α → α} (hp : ∀ a, p (f a) ↔ p a) (hf : ∀ a, f (f a) = f a) (l : List α) :
    updateFirst p f (updateFirst p f l) = updateFirst p f l := by
  induction l with
  | nil => rfl
  | cons a as ih =>
    by_cases hpa : p a
    · simp [updateFirst, hpa, (hp a).mpr hpa, hf]
    · simp [updateFirst, hpa, ih]

theorem updateFirst_eq_self {α : Type _} {p : α → Prop} [DecidablePred p]
    {f : α → α} {l : List α} (h : ∀ a ∈ l, p a → f a = a) :
    updateFirst p f l = l := by
  induction l with
  | nil => rfl
  | cons a as ih =>
    by_cases hpa : p a
    · simp [updateFirst, hpa, h a (List.mem_cons_self a as) hpa]
    · have : updateFirst p f as = as :=
        ih fun b hb hpb => h b (List.mem_cons_of_mem a hb) hpb
      simp [updateFirst, hpa, this]

theorem mem_modifyIdx {α : Type _} {g : α → α} {x : α} :
    ∀ {j : Nat} {l : List α}, x ∈ modifyIdx g j l → x ∈ l ∨ ∃ b, b ∈ l ∧ x = g b := by
  intro j l
  induction l generalizing j with
  | nil => intro h; simp [modifyIdx] at h
  | cons a as ih =>
    cases j with
    | zero =>
      intro h
      rcases List.mem_cons.mp h with rfl | h
      · exact Or.inr ⟨a, List.mem_cons_self a as, rfl⟩
      · exact Or.inl (List.mem_cons_of_mem a h)
    | succ n =>
      intro h
      rcases List.mem_cons.mp h with rfl | h
      · exact Or.inl (List.mem_cons_self _ _)
      · rcases ih h with h' | ⟨b, hb, rfl⟩
        · exact Or.inl (List.mem_cons_of_mem a h')
        · exact Or.inr ⟨b, List.mem_cons_of_mem a hb, rfl⟩

theorem modifyIdx_comp {α : Type _} (g1 g2 : α → α) :
    ∀ (j : Nat) (l : List α),
      modifyIdx g1 j (modifyIdx g2 j l) = modifyIdx (fun a => g1 (g2 a)) j l := by
  intro j l
  induction l generalizing j with
  | nil => simp [modifyIdx]
  | cons a as ih =>
    cases j with
    | zero => simp [modifyIdx]
    | succ n => simp [modifyIdx, ih]

theorem modifyIdx_congr {α : Type _} {g1 g2 : α → α} (h : ∀ a, g1 a = g2 a) :
    ∀ (j : Nat) (l : List α), modifyIdx g1 j l = modifyIdx g2 j l := by
  intro j l
  induction l generalizing j with
  | nil => simp [modifyIdx]
  | cons a as ih =>
    cases j with
    | zero => simp [modifyIdx, h]
    | succ n => simp [modifyIdx, ih]

theorem getElem?_modifyIdx_ne {α : Type _} {g : α → α} :
    ∀ {i j : Nat} (l : List α), i ≠ j → (modifyIdx g j l)[i]? = l[i]? := by
  intro i j l
  induction l generalizing i j with
  | nil => intro _; simp [modifyIdx]
  | cons a as ih =>
    intro hij
    cases j with
    | zero =>
      cases i with
      | zero => exact absurd rfl hij
      | succ m => simp [modifyIdx]
    | succ n =>
      cases i with
      | zero => simp [modifyIdx]
      | succ m =>
        have hmn : m ≠ n := fun hc => hij (by omega)
        simp only [modifyIdx, List.getElem?_cons_succ]
        exact ih hmn

theorem getElem?_map_updateFirst {α β : Type _} {p : α → Prop} [DecidablePred p]
    {f : α → α} (gm : α → β) (h : ∀ a, p a → gm (f a) = gm a) :
    ∀ (l : List α) (i : Nat), ((updateFirst p f l)[i]?).map gm = (l[i]?).map gm := by
  intro l
  induction l with
  | nil => intro i; rfl
  | cons a as ih =>
    intro i
    by_cases hpa : p a
    · cases i with
      | zero => simp [updateFirst, hpa, h a hpa]
      | succ m => simp [updateFirst, hpa]
    · cases i with
      | zero => simp [updateFirst, hpa]
      | succ m => simp [updateFirst, hpa, ih]

/-! Lemmas about the grant mutation and the reconciliation operations. -/

theorem applyGrant_idem (t : Tier) (a : Account) :
    applyGrant t (applyGrant t a) = applyGrant t a := rfl

theorem applyGrant_cid (t : Tier) (a : Account) :
    (applyGrant t a).stripe_customer_id = a.stripe_customer_id := rfl

theorem applyCheckout_idem (w : List Account) (c : String) (price : Option String) :
    applyCheckout (applyCheckout w c price) c price = applyCheckout w c price := by
  have hp : ∀ a : Account,
      (applyGrant (tierOfPrice price) a).stripe_customer_id = some c ↔
        a.stripe_customer_id = some c := fun a => Iff.rfl
  cases hfind : findFirst (fun a : Account => a.stripe_customer_id = some c) w with
  | none => simp [applyCheckout, hfind]
  | some t =>
    have h2 : findFirst (fun a : Account => a.stripe_customer_id = some c)
        (updateFirst (fun a : Account => a.stripe_customer_id = some c)
          (applyGrant (tierOfPrice price)) w)
        = some (applyGrant (tierOfPrice price) t) := by
      rw [findFirst_updateFirst hp, hfind]; rfl
    simp only [applyCheckout, hfind, h2]
    exact updateFirst_idem (p := fun a : Account => a.stripe_customer_id = some c)
      (f := applyGrant (tierOfPrice price)) hp (fun a => applyGrant_idem _ a) w

theorem post_checkout_idem (w : List Account) (cur : Option Nat)
    (c p : Option String) :
    post_checkout (post_checkout w cur c p) cur c p = post_checkout w cur c p := by
  cases c with
  | none => rfl
  | some cv =>
    have hp : ∀ a : Account,
        (applyGrant (tierOfPrice p) a).stripe_customer_id = some cv ↔
          a.stripe_customer_id = some cv := fun a => Iff.rfl
    cases hfind : findFirst (fun a : Account => a.stripe_customer_id = some cv) w with
    | some t =>
      have h2 : findFirst (fun a : Account => a.stripe_customer_id = some cv)
          (updateFirst (fun a : Account => a.stripe_customer_id = some cv)
            (applyGrant (tierOfPrice p)) w)
          = some (applyGrant (tierOfPrice p) t) := by
        rw [findFirst_updateFirst hp, hfind]; rfl
      simp only [post_checkout, hfind, h2]
      exact updateFirst_idem (p := fun a : Account => a.stripe_customer_id = some cv)
        (f := applyGrant (tierOfPrice p)) hp (fun a => applyGrant_idem _ a) w
    | none =>
      cases cur with
      | none => simp [post_checkout, hfind]
      | some j =>
        cases hfind2 : findFirst (fun a : Account => a.stripe_customer_id = some cv)
            (modifyIdx
              (fun a : Account =>
                applyGrant (tierOfPrice p) { a with stripe_customer_id := some cv })
              j w) with
        | some u =>
          have hself : updateFirst (fun a : Account => a.stripe_customer_id = some cv)
              (applyGrant (tierOfPrice p))
              (modifyIdx
                (fun a : Account =>
                  applyGrant (tierOfPrice p) { a with stripe_customer_id := some cv })
                j w)
              = modifyIdx
                  (fun a : Account =>
                    applyGrant (tierOfPrice p) { a with stripe_customer_id := some cv })
                  j w := by
            apply updateFirst_eq_self
            intro a ha hpa
            rcases mem_modifyIdx ha with hmem | ⟨b, hb, rfl⟩
            · exact absurd hpa (findFirst_eq_none_forall hfind a hmem)
            · rfl
          simp only [post_checkout, hfind, hfind2, hself]
        | none =>
          have hcollapse :
              modifyIdx
                (fun a : Account =>
                  applyGrant (tierOfPrice p) { a with stripe_customer_id := some cv })
                j
                (modifyIdx
                  (fun a : Account =>
                    applyGrant (tierOfPrice p) { a with stripe_customer_id := some cv })
                  j w)
              = modifyIdx
                  (fun a : Account =>
                    applyGrant (tierOfPrice p) { a with stripe_customer_id := some cv })
                  j w := by
            rw [modifyIdx_comp]
            exact modifyIdx_congr (fun a => rfl) j w
          simp only [post_checkout, hfind, hfind2, hcollapse]

/-! Arithmetic lemmas about `py_round`. -/

theorem py_round_bounds (x : ℚ) :
    x - 1 / 2 ≤ (py_round x : ℚ) ∧ (py_round x : ℚ) ≤ x + 1 / 2 := by
  have hf1 : ((Int.floor x : ℤ) : ℚ) ≤ x := Int.floor_le x
  have hf2 : x < ((Int.floor x : ℤ) : ℚ) + 1 := Int.lt_floor_add_one x
  unfold py_round
  split_ifs with h1 h2 h3
  · constructor <;> linarith
  · push_cast
    constructor <;> linarith
  · have hr : x - ((Int.floor x : ℤ) : ℚ) = 1 / 2 :=
      le_antisymm (not_lt.mp h2) (not_lt.mp h1)
    constructor <;> linarith
  · have hr : x - ((Int.floor x : ℤ) : ℚ) = 1 / 2 :=
      le_antisymm (not_lt.mp h2) (not_lt.mp h1)
    push_cast
    constructor <;> linarith

theorem py_round_intCast (n : ℤ) : py_round (n : ℚ) = n := by
  have h0 : ((n : ℚ) - ((Int.floor (n : ℚ) : ℤ) : ℚ)) = 0 := by
    rw [Int.floor_intCast]; ring
  unfold py_round
  rw [Int.floor_intCast] at h0 ⊢
  norm_num

theorem py_round_le_of_le {x : ℚ} {n : ℤ} (hx : x ≤ (n : ℚ)) : py_round x ≤ n := by
  have h := (py_round_bounds x).2
  have h2 : ((py_round x : ℤ) : ℚ) < (n : ℚ) + 1 := by linarith
  have h3 : py_round x < n + 1 := by exact_mod_cast h2
  omega

theorem one_le_py_round {x : ℚ} (hx : 1 / 2 < x) : 1 ≤ py_round x := by
  have h := (py_round_bounds x).1
  have h2 : (0 : ℚ) < ((py_round x : ℤ) : ℚ) := by linarith
  have h3 : 0 < py_round x := by exact_mod_cast h2
  omega

/-! Claim theorems. -/

theorem transform_credits_nonneg (st : TransformState) (authed : Bool)
    (file : Option String) (gen : GenOutcome) (ip op : String)
    (h : 0 ≤ st.account.credits_remaining) :
    0 ≤ (transform st authed file gen ip op).state.account.credits_remaining := by
  unfold transform
  repeat' split
  all_goals try exact h
  all_goals
    dsimp only
    split
  all_goals try exact h
  all_goals
    show (0 : ℤ) ≤ max 0 (st.account.credits_remaining - CREDITS_PER_IMAGE)
    exact le_max_left 0 _

/-- C1: for every account and every sequence of `transform` requests starting
from a non-negative balance, `credits_remaining` stays non-negative after every
operation: `transform` rejects before any mutation when the balance is below
`CREDITS_PER_IMAGE`, and the debit is `max 0 (balance - CREDITS_PER_IMAGE)`. -/
theorem C1_credits_never_negative (st : TransformState) (ins : List TransformInput)
    (h : 0 ≤ st.account.credits_remaining) :
    0 ≤ (runTransforms st ins).account.credits_remaining := by
  induction ins generalizing st with
  | nil => exact h
  | cons i is ih =>
    exact ih _ (transform_credits_nonneg st i.authed i.file i.gen i.inPath i.outPath h)

/-- Witness for C1 at the fresh free-tier account and one successful request. -/
theorem C1_witness :
    0 ≤ freeState.account.credits_remaining ∧
      0 ≤ (runTransforms freeState [okInput]).account.credits_remaining :=
  ⟨by decide, C1_credits_never_negative freeState [okInput] (by decide)⟩

/-- C2: replaying the same subscription event — the same
`checkout.session.completed` webhook delivery, or the same synchronous
`post_checkout` confirmation — leaves the state of the first application
unchanged, because the grant is a full overwrite of `plan_tier`,
`is_subscribed` and both credit fields with the tier's catalog values. -/
theorem C2_replay_idempotent (w : List Account) (cid : Option String)
    (r : Except Unit (Option String)) (cur : Option Nat) (c p : Option String) :
    (stripe_webhook true (.checkoutCompleted cid r)
        (stripe_webhook true (.checkoutCompleted cid r) w).2).2
      = (stripe_webhook true (.checkoutCompleted cid r) w).2
    ∧ post_checkout (post_checkout w cur c p) cur c p = post_checkout w cur c p
    ∧ ∀ (t : Tier) (a : Account), applyGrant t (applyGrant t a) = applyGrant t a := by
  refine ⟨?_, post_checkout_idem w cur c p, fun t a => applyGrant_idem t a⟩
  cases cid with
  | none => rfl
  | some cv =>
    cases r with
    | error e => rfl
    | ok price =>
      simpa [stripe_webhook] using applyCheckout_idem w cv price

/-- C5: when the external generation collaborator yields an empty part list
(no inline image) or raises (malformed result), `transform` fails with the
generation-failure path and commits nothing: the state — credits, generation
count, and the generations table — is returned unchanged. -/
theorem C5_failure_no_debit (st : TransformState) (fn : String) (l : List GenPart)
    (ip op : String) (hauth : authorize st.account CREDITS_PER_IMAGE = true)
    (hfn : fn ≠ "") (hl : l.filterMap GenPart.inline_data = []) :
    transform st true (some fn) (.parts l) ip op
        = ⟨.generationFailed, st, true⟩
    ∧ transform st true (some fn) .exn ip op = ⟨.generationFailed, st, true⟩ := by
  have hcr : ¬ st.account.credits_remaining < CREDITS_PER_IMAGE := by
    have : CREDITS_PER_IMAGE ≤ st.account.credits_remaining := by
      simpa [authorize, decide_eq_true_eq] using hauth
    exact not_lt.mpr this
  constructor <;> simp [transform, hcr, hfn, hl]

/-- Witness for C5 at the fresh free-tier account, a response with one part
carrying no inline data, and the exception path. -/
theorem C5_witness :
    transform freeState true (some "p.jpg")
        (.parts [{ inline_data := none }]) "i" "o"
      = ⟨.generationFailed, freeState, true⟩
    ∧ transform freeState true (some "p.jpg") .exn "i" "o"
      = ⟨.generationFailed, freeState, true⟩ :=
  C5_failure_no_debit freeState "p.jpg" [{ inline_data := none }] "i" "o"
    (by decide) (by decide) (by decide)

/-- C7: `authorize` returns `true` exactly when `credits_remaining >= cost`;
an authenticated `transform` call returns the insufficient-credits rejection
exactly when `credits_remaining < CREDITS_PER_IMAGE` at entry, and in that
case the external collaborator is not called and the state is unchanged. -/
theorem C7_authorize_gate (a : Account) (cost : Int) (st : TransformState)
    (file : Option String) (gen : GenOutcome) (ip op : String) :
    (authorize a cost = true ↔ cost ≤ a.credits_remaining)
    ∧ (authorize st.account CREDITS_PER_IMAGE = false
        ↔ st.account.credits_remaining < CREDITS_PER_IMAGE)
    ∧ ((transform st true file gen ip op).result = .insufficientCredits
        ↔ st.account.credits_remaining < CREDITS_PER_IMAGE)
    ∧ (st.account.credits_remaining < CREDITS_PER_IMAGE →
        transform st true file gen ip op = ⟨.insufficientCredits, st, false⟩) := by
  refine ⟨by simp [authorize, decide_eq_true_eq],
          by simp [authorize, not_le],
          ?_, fun h => by simp [transform, h]⟩
  by_cases h : st.account.credits_remaining < CREDITS_PER_IMAGE
  · simp [transform, h]
  · cases file with
    | none => simp [transform, h]
    | some fn =>
      by_cases hfn : fn = ""
      · simp [transform, h, hfn]
      · cases gen with
        | exnBeforeCall => simp [transform, h, hfn]
        | exn => simp [transform, h, hfn]
        | parts l =>
          by_cases hl : (l.filterMap GenPart.inline_data).isEmpty
          · simp [transform, h, hfn, hl]
          · simp [transform, h, hfn, hl]

/-- Witness for C7 at a free-tier account holding 250 credits. -/
theorem C7_witness :
    transform lowState true (some "p.jpg") .exn "i" "o"
      = ⟨.insufficientCredits, lowState, false⟩ :=
  (C7_authorize_gate lowState.account CREDITS_PER_IMAGE lowState
      (some "p.jpg") .exn "i" "o").2.2.2 (by decide)

set_option maxRecDepth 40000 in
/-- C8: starting from the fresh free-tier account (10000 credits, cost 500
per generation), each of the first twenty `transform` requests succeeds, the
balance after twenty is exactly 0, the twenty-first `authorize` check returns
`false`, and the twenty-first `transform` is rejected for insufficient
credits. -/
theorem C8_twenty_generations :
    ((runTransforms freeState (List.replicate 20 okInput)).account.credits_remaining = 0)
    ∧ (∀ k, k < 20 →
        (transform (runTransforms freeState (List.replicate k okInput))
            okInput.authed okInput.file okInput.gen okInput.inPath okInput.outPath).result
          = .success)
    ∧ authorize (runTransforms freeState (List.replicate 20 okInput)).account
        CREDITS_PER_IMAGE = false
    ∧ (transform (runTransforms freeState (List.replicate 20 okInput))
          okInput.authed okInput.file okInput.gen okInput.inPath okInput.outPath).result
        = .insufficientCredits := by
  decide

set_option maxRecDepth 40000 in
/-- Witness for C8: the first generation (after zero prior requests)
succeeds. -/
theorem C8_witness :
    (transform (runTransforms freeState (List.replicate 0 okInput))
        okInput.authed okInput.file okInput.gen okInput.inPath okInput.outPath).result
      = .success :=
  C8_twenty_generations.2.1 0 (by decide)

/-- C9: a signature-verified `checkout.session.completed` webhook event whose
processing raises inside the handler's inner `try` block is swallowed: the
endpoint still answers HTTP 200 and the user table is unchanged. -/
theorem C9_webhook_swallows_error (w : List Account) (cid : String) :
    stripe_webhook true (.checkoutCompleted (some cid) (.error ())) w = (200, w) := by
  simp [stripe_webhook]

/-- C3 counterexample: an authenticated account already bound to customer
reference "cusA" visits `post_checkout` with a session whose customer is
"cusB", a reference bound to no account; the handler's `elif` branch
overwrites the non-null `stripe_customer_id` with the different value
"cusB". -/
theorem C3_counterexample :
    cidAt [{ id := 1, email := "a@x", generation_count := 0, is_subscribed := false,
             stripe_customer_id := some "cusA", plan_tier := Tier.free,
             credits_remaining := 10000, credits_limit := 10000 }] 0
        = some (some "cusA")
    ∧ cidAt
        (post_checkout
          [{ id := 1, email := "a@x", generation_count := 0, is_subscribed := false,
             stripe_customer_id := some "cusA", plan_tier := Tier.free,
             credits_remaining := 10000, credits_limit := 10000 }]
          (some 0) (some "cusB") none) 0
        = some (some "cusB")
    ∧ some "cusA" ≠ some "cusB" := by
  refine ⟨by decide, by decide, by decide⟩

/-- C3 (amended): `ensure_stripe_customer` and `stripe_webhook` never change a
non-null `stripe_customer_id`; `post_checkout` never changes the
`stripe_customer_id` of any account other than the authenticated one, and
changes none at all whenever the session's customer reference is already bound
to some account.  The only overwrite path is the counterexample's: the
authenticated account rebound to an unbound session customer reference. -/
theorem C3_cid_immutability_amended :
    (∀ (a : Account) (fresh x : String), a.stripe_customer_id = some x →
        (ensure_stripe_customer a fresh).1.stripe_customer_id = some x)
    ∧ (∀ (sig : Bool) (ev : StripeEvent) (w : List Account) (i : Nat),
        cidAt (stripe_webhook sig ev w).2 i = cidAt w i)
    ∧ (∀ (w : List Account) (cur : Option Nat) (c p : Option String) (i : Nat),
        cur ≠ some i → cidAt (post_checkout w cur c p) i = cidAt w i)
    ∧ (∀ (w : List Account) (cur : Option Nat) (cv : String) (p : Option String)
        (t : Account) (i : Nat),
        findFirst (fun a : Account => a.stripe_customer_id = some cv) w = some t →
        cidAt (post_checkout w cur (some cv) p) i = cidAt w i) := by
  refine ⟨?_, ?_, ?_, ?_⟩
  · intro a fresh x hx
    simp [ensure_stripe_customer, hx]
  · intro sig ev w i
    cases sig with
    | false => simp [stripe_webhook]
    | true =>
      cases ev with
      | checkoutCompleted cid r =>
        cases cid with
        | none => rfl
        | some c =>
          cases r with
          | error e => rfl
          | ok price =>
            cases hfind : findFirst (fun a : Account => a.stripe_customer_id = some c) w with
            | none => simp [stripe_webhook, applyCheckout, hfind]
            | some t =>
              simp only [stripe_webhook, applyCheckout, hfind, cidAt]
              exact getElem?_map_updateFirst
                (p := fun a : Account => a.stripe_customer_id = some c)
                (f := applyGrant (tierOfPrice price))
                Account.stripe_customer_id (fun a _ => rfl) w i
      | subscriptionEvent cid price status =>
        cases cid with
        | none => rfl
        | some c =>
          simp only [stripe_webhook, applySubscription, cidAt]
          refine getElem?_map_updateFirst
            (p := fun a : Account => a.stripe_customer_id = some c)
            (f := fun a => if status = "active" ∨ status = "trialing" then
              applyGrant (tierOfPrice price) a else applyCancel a)
            Account.stripe_customer_id ?_ w i
          intro a _
          by_cases hact : (status = "active" ∨ status = "trialing")
          · simp [hact, applyGrant]
          · simp [hact, applyCancel]
      | other => rfl
  · intro w cur c p i hne
    cases c with
    | none => rfl
    | some cv =>
      cases hfind : findFirst (fun a : Account => a.stripe_customer_id = some cv) w with
      | some t =>
        simp only [post_checkout, hfind, cidAt]
        exact getElem?_map_updateFirst
          (p := fun a : Account => a.stripe_customer_id = some cv)
          (f := applyGrant (tierOfPrice p))
          Account.stripe_customer_id (fun a _ => rfl) w i
      | none =>
        cases cur with
        | none => simp [post_checkout, hfind]
        | some j =>
          have hij : i ≠ j := fun hc => hne (by rw [hc])
          simp only [post_checkout, hfind, cidAt]
          rw [getElem?_modifyIdx_ne w hij]
  · intro w cur cv p t i hfind
    simp only [post_checkout, hfind, cidAt]
    exact getElem?_map_updateFirst
      (p := fun a : Account => a.stripe_customer_id = some cv)
      (f := applyGrant (tierOfPrice p))
      Account.stripe_customer_id (fun a _ => rfl) w i

/-- Witness for C3's amended theorem at concrete accounts: a bound reference
survives `ensure_stripe_customer`, a non-current account's reference survives
`post_checkout`, and an already-bound session customer leaves every reference
unchanged. -/
theorem C3_witness :
    (ensure_stripe_customer
        { id := 1, email := "a@x", generation_count := 0, is_subscribed := false,
          stripe_customer_id := some "cusA", plan_tier := Tier.free,
          credits_remaining := 10000, credits_limit := 10000 }
        "cusFresh").1.stripe_customer_id = some "cusA"
    ∧ cidAt
        (post_checkout
          [{ id := 1, email := "a@x", generation_count := 0, is_subscribed := false,
             stripe_customer_id := some "cusA", plan_tier := Tier.free,
             credits_remaining := 10000, credits_limit := 10000 }]
          (some 1) (some "cusB") none) 0
      = cidAt
          [{ id := 1, email := "a@x", generation_count := 0, is_subscribed := false,
             stripe_customer_id := some "cusA", plan_tier := Tier.free,
             credits_remaining := 10000, credits_limit := 10000 }] 0
    ∧ cidAt
        (post_checkout
          [{ id := 1, email := "a@x", generation_count := 0, is_subscribed := false,
             stripe_customer_id := some "cusA", plan_tier := Tier.free,
             credits_remaining := 10000, credits_limit := 10000 }]
          (some 0) (some "cusA") none) 0
      = cidAt
          [{ id := 1, email := "a@x", generation_count := 0, is_subscribed := false,
             stripe_customer_id := some "cusA", plan_tier := Tier.free,
             credits_remaining := 10000, credits_limit := 10000 }] 0 :=
  ⟨C3_cid_immutability_amended.1 _ "cusFresh" "cusA" (by decide),
   C3_cid_immutability_amended.2.2.1 _ (some 1) (some "cusB") none 0 (by decide),
   C3_cid_immutability_amended.2.2.2 _ (some 0) "cusA" none
     { id := 1, email := "a@x", generation_count := 0, is_subscribed := false,
       stripe_customer_id := some "cusA", plan_tier := Tier.free,
       credits_remaining := 10000, credits_limit := 10000 } 0 (by decide)⟩

theorem mobile_upload_post_unknown (sf : String → String) (toks : List MobileToken)
    (tok : String) (hfind : findFirst (fun x : MobileToken => x.token = tok) toks = none)
    (file : Option String) :
    mobile_upload_post sf toks tok file = (.rejected410, toks) := by
  cases file with
  | none => simp [mobile_upload_post, hfind]
  | some fn => simp [mobile_upload_post, hfind]

theorem mobile_upload_post_used (sf : String → String) (toks : List MobileToken)
    (tok : String) (t : MobileToken)
    (hfind : findFirst (fun x : MobileToken => x.token = tok) toks = some t)
    (hused : t.used = true) (file : Option String) :
    mobile_upload_post sf toks tok file = (.rejected410, toks) := by
  cases file with
  | none => simp [mobile_upload_post, hfind, hused]
  | some fn => simp [mobile_upload_post, hfind, hused]

/-- C6: `mobile_upload_post` is exactly-once.  A deposit on an unknown token,
or on a token already used, is rejected with the table unchanged.  A deposit
on a known unused token with a real file succeeds, setting the artifact and
`used := true` in the same transition; afterwards every further deposit on
that token — including a retry of the same one — is rejected with the table
(and hence the stored artifact) unchanged. -/
theorem C6_deposit_exactly_once (sf : String → String) (toks : List MobileToken)
    (tok : String) :
    (findFirst (fun x : MobileToken => x.token = tok) toks = none →
      ∀ file, mobile_upload_post sf toks tok file = (.rejected410, toks))
    ∧ (∀ t : MobileToken,
        findFirst (fun x : MobileToken => x.token = tok) toks = some t →
        t.used = true →
        ∀ file, mobile_upload_post sf toks tok file = (.rejected410, toks))
    ∧ (∀ (t : MobileToken) (fn : String),
        findFirst (fun x : MobileToken => x.token = tok) toks = some t →
        t.used = false → fn ≠ "" →
        (mobile_upload_post sf toks tok (some fn)).1 = .success
        ∧ findFirst (fun x : MobileToken => x.token = tok)
            (mobile_upload_post sf toks tok (some fn)).2
            = some { t with
                     image_path := some ("/static/uploads/mobile_" ++ tok ++ "_" ++
                       (if sf fn = "" then tok ++ ".jpg" else sf fn))
                     used := true }
        ∧ ∀ file2,
            mobile_upload_post sf (mobile_upload_post sf toks tok (some fn)).2 tok file2
              = (.rejected410, (mobile_upload_post sf toks tok (some fn)).2)) := by
  refine ⟨?_, ?_, ?_⟩
  · intro hfind file
    exact mobile_upload_post_unknown sf toks tok hfind file
  · intro t hfind hused file
    exact mobile_upload_post_used sf toks tok t hfind hused file
  · intro t fn hfind hused hfn
    have hp : ∀ x : MobileToken,
        ((fun y : MobileToken =>
            { y with
              image_path := some ("/static/uploads/mobile_" ++ tok ++ "_" ++
                (if sf fn = "" then tok ++ ".jpg" else sf fn))
              used := true }) x).token = tok ↔ x.token = tok := fun x => Iff.rfl
    have hout : mobile_upload_post sf toks tok (some fn)
        = (.success,
           updateFirst (fun x : MobileToken => x.token = tok)
             (fun y : MobileToken =>
               { y with
                 image_path := some ("/static/uploads/mobile_" ++ tok ++ "_" ++
                   (if sf fn = "" then tok ++ ".jpg" else sf fn))
                 used := true }) toks) := by
      simp [mobile_upload_post, hfind, hused, hfn]
    have hfind2 : findFirst (fun x : MobileToken => x.token = tok)
        (mobile_upload_post sf toks tok (some fn)).2
        = some { t with
                 image_path := some ("/static/uploads/mobile_" ++ tok ++ "_" ++
                   (if sf fn = "" then tok ++ ".jpg" else sf fn))
                 used := true } := by
      rw [hout]
      show findFirst _ (updateFirst _ _ toks) = _
      rw [findFirst_updateFirst hp, hfind]
      rfl
    refine ⟨by rw [hout], hfind2, ?_⟩
    intro file2
    exact mobile_upload_post_used sf _ tok _ hfind2 rfl file2

/-- Witness for C6 at a one-token table: the deposit succeeds, stores the
artifact with `used := true`, and a retried deposit is rejected without
change. -/
theorem C6_witness :
    (mobile_upload_post (fun s => s)
        [{ token := "tk", used := false, image_path := none, user_id := none }]
        "tk" (some "a.jpg")).1 = .success
    ∧ findFirst (fun x : MobileToken => x.token = "tk")
        (mobile_upload_post (fun s => s)
          [{ token := "tk", used := false, image_path := none, user_id := none }]
          "tk" (some "a.jpg")).2
        = some { token := "tk", used := true,
                 image_path := some ("/static/uploads/mobile_" ++ "tk" ++ "_" ++
                   (if (fun s => s) "a.jpg" = "" then "tk" ++ ".jpg"
                    else (fun s => s) "a.jpg")),
                 user_id := none }
    ∧ ∀ file2,
        mobile_upload_post (fun s => s)
          (mobile_upload_post (fun s => s)
            [{ token := "tk", used := false, image_path := none, user_id := none }]
            "tk" (some "a.jpg")).2 "tk" file2
          = (.rejected410,
             (mobile_upload_post (fun s => s)
               [{ token := "tk", used := false, image_path := none, user_id := none }]
               "tk" (some "a.jpg")).2) :=
  (C6_deposit_exactly_once (fun s => s)
      [{ token := "tk", used := false, image_path := none, user_id := none }]
      "tk").2.2
    { token := "tk", used := false, image_path := none, user_id := none }
    "a.jpg" (by decide) rfl (by decide)

/-- C10: a deposit on a known, not-yet-used token that carries no file (or an
empty filename) is rejected with the flash message and the table entirely
unchanged — `used` stays `false` and no artifact is set — so, unlike the
terminal used-token rejection, a later well-formed deposit on the same token
still succeeds. -/
theorem C10_missing_file_recoverable (sf : String → String)
    (toks : List MobileToken) (tok : String) (t : MobileToken)
    (hfind : findFirst (fun x : MobileToken => x.token = tok) toks = some t)
    (hused : t.used = false) :
    mobile_upload_post sf toks tok none = (.flashNoFile, toks)
    ∧ mobile_upload_post sf toks tok (some "") = (.flashNoFile, toks)
    ∧ ∀ fn, fn ≠ "" → (mobile_upload_post sf toks tok (some fn)).1 = .success := by
  refine ⟨by simp [mobile_upload_post, hfind, hused],
          by simp [mobile_upload_post, hfind, hused], ?_⟩
  intro fn hfn
  simp [mobile_upload_post, hfind, hused, hfn]

/-- Witness for C10 at a one-token table: the empty deposits are rejected with
the state unchanged and a later real deposit succeeds. -/
theorem C10_witness :
    mobile_upload_post (fun s => s)
        [{ token := "tk2", used := false, image_path := none, user_id := none }]
        "tk2" none
      = (.flashNoFile,
         [{ token := "tk2", used := false, image_path := none, user_id := none }])
    ∧ mobile_upload_post (fun s => s)
        [{ token := "tk2", used := false, image_path := none, user_id := none }]
        "tk2" (some "")
      = (.flashNoFile,
         [{ token := "tk2", used := false, image_path := none, user_id := none }])
    ∧ ∀ fn, fn ≠ "" →
        (mobile_upload_post (fun s => s)
          [{ token := "tk2", used := false, image_path := none, user_id := none }]
          "tk2" (some fn)).1 = .success :=
  C10_missing_file_recoverable (fun s => s)
    [{ token := "tk2", used := false, image_path := none, user_id := none }]
    "tk2" { token := "tk2", used := false, image_path := none, user_id := none }
    (by decide) rfl

/-- C4 counterexample: a 100 x 50 input, whose longest edge 100 is already
smaller than 1024, is NOT left at its original size: the resize step upscales
it to 1024 x 512. -/
theorem C4_counterexample :
    resize 100 50 = (1024, 512) ∧ resize 100 50 ≠ (100, 50) := by
  have h : resize 100 50 = (1024, 512) := by
    norm_num [resize, py_round]
  refine ⟨h, ?_⟩
  rw [h]
  decide

/-- C4 (amended): for every input with positive dimensions `w x h`, the resize
step produces positive integer dimensions whose longest edge equals exactly
1024 — including when the input's longest edge is smaller than 1024: small
images are upscaled, not left at their original size.  Whenever neither exact
scaled dimension falls below one half (i.e. outside degenerate aspect ratios
beyond 2048:1, where the clamp to 1 takes over), both outputs are within 1/2
of the exact scaled values, so the aspect ratio is preserved up to rounding:
`|new_w * h - new_h * w| <= (w + h) / 2`. -/
theorem C4_resize_contract (w h : Nat) (hw : 0 < w) (hh : 0 < h) :
    1 ≤ (resize w h).1 ∧ 1 ≤ (resize w h).2
    ∧ max (resize w h).1 (resize w h).2 = 1024
    ∧ ((max w h : ℚ) < 2048 * (min w h : ℚ) →
        |((resize w h).1 : ℚ) * (h : ℚ) - ((resize w h).2 : ℚ) * (w : ℚ)|
          ≤ ((w : ℚ) + (h : ℚ)) / 2) := by
  have hLpos : 0 < max w h := lt_of_lt_of_le hw (le_max_left w h)
  have hLne : max w h ≠ 0 := Nat.pos_iff_ne_zero.mp hLpos
  have hLq : (0 : ℚ) < ((max w h : Nat) : ℚ) := by exact_mod_cast hLpos
  have hr1 : (resize w h).1
      = max 1 (py_round ((w : ℚ) * (1024 / ((max w h : Nat) : ℚ)))) := by
    simp [resize, hLne]
  have hr2 : (resize w h).2
      = max 1 (py_round ((h : ℚ) * (1024 / ((max w h : Nat) : ℚ)))) := by
    simp [resize, hLne]
  have hcap : ∀ a : Nat, a ≤ max w h →
      py_round ((a : ℚ) * (1024 / ((max w h : Nat) : ℚ))) ≤ 1024 := by
    intro a ha
    have haq : ((a : Nat) : ℚ) ≤ ((max w h : Nat) : ℚ) := by exact_mod_cast ha
    apply py_round_le_of_le
    have heq : (a : ℚ) * (1024 / ((max w h : Nat) : ℚ))
        = ((a : ℚ) * 1024) / ((max w h : Nat) : ℚ) := by ring
    rw [heq, div_le_iff hLq]
    push_cast
    push_cast at haq
    linarith
  have hexact :
      py_round (((max w h : Nat) : ℚ) * (1024 / ((max w h : Nat) : ℚ))) = 1024 := by
    have heq : ((max w h : Nat) : ℚ) * (1024 / ((max w h : Nat) : ℚ))
        = ((1024 : ℤ) : ℚ) := by
      field_simp
    rw [heq, py_round_intCast]
  have hmax : max (resize w h).1 (resize w h).2 = 1024 := by
    rcases le_total h w with hle | hle
    · have hLw : max w h = w := max_eq_left hle
      have h1 : (resize w h).1 = 1024 := by
        rw [hr1]
        rw [hLw] at hexact ⊢
        rw [hexact]
        norm_num
      have h2 : (resize w h).2 ≤ 1024 := by
        rw [hr2]
        exact max_le (by norm_num) (hcap h (le_max_right w h))
      rw [h1]
      exact max_eq_left h2
    · have hLh : max w h = h := max_eq_right hle
      have h2 : (resize w h).2 = 1024 := by
        rw [hr2]
        rw [hLh] at hexact ⊢
        rw [hexact]
        norm_num
      have h1 : (resize w h).1 ≤ 1024 := by
        rw [hr1]
        exact max_le (by norm_num) (hcap w (le_max_left w h))
      rw [h2]
      exact max_eq_right h1
  refine ⟨by rw [hr1]; exact le_max_left 1 _, by rw [hr2]; exact le_max_left 1 _,
    hmax, ?_⟩
  intro hmin
  have hminw : ((min w h : Nat) : ℚ) ≤ (w : ℚ) := by
    exact_mod_cast Nat.min_le_left w h
  have hminh : ((min w h : Nat) : ℚ) ≤ (h : ℚ) := by
    exact_mod_cast Nat.min_le_right w h
  have hwhalf : 1 / 2 < (w : ℚ) * (1024 / ((max w h : Nat) : ℚ)) := by
    have heq : (w : ℚ) * (1024 / ((max w h : Nat) : ℚ))
        = ((w : ℚ) * 1024) / ((max w h : Nat) : ℚ) := by ring
    rw [heq, lt_div_iff hLq]
    push_cast
    push_cast at hminw
    linarith
  have hhhalf : 1 / 2 < (h : ℚ) * (1024 / ((max w h : Nat) : ℚ)) := by
    have heq : (h : ℚ) * (1024 / ((max w h : Nat) : ℚ))
        = ((h : ℚ) * 1024) / ((max w h : Nat) : ℚ) := by ring
    rw [heq, lt_div_iff hLq]
    push_cast
    push_cast at hminh
    linarith
  have hb1 := py_round_bounds ((w : ℚ) * (1024 / ((max w h : Nat) : ℚ)))
  have hb2 := py_round_bounds ((h : ℚ) * (1024 / ((max w h : Nat) : ℚ)))
  have h1eq : (resize w h).1
      = py_round ((w : ℚ) * (1024 / ((max w h : Nat) : ℚ))) := by
    rw [hr1]
    exact max_eq_right (one_le_py_round hwhalf)
  have h2eq : (resize w h).2
      = py_round ((h : ℚ) * (1024 / ((max w h : Nat) : ℚ))) := by
    rw [hr2]
    exact max_eq_right (one_le_py_round hhhalf)
  rw [h1eq, h2eq, abs_le]
  have hw0 : (0 : ℚ) ≤ (w : ℚ) := by positivity
  have hh0 : (0 : ℚ) ≤ (h : ℚ) := by positivity
  have e1 := mul_le_mul_of_nonneg_right hb1.1 hh0
  have e2 := mul_le_mul_of_nonneg_right hb1.2 hh0
  have e3 := mul_le_mul_of_nonneg_right hb2.1 hw0
  have e4 := mul_le_mul_of_nonneg_right hb2.2 hw0
  have key : (w : ℚ) * (1024 / ((max w h : Nat) : ℚ)) * (h : ℚ)
      = (h : ℚ) * (1024 / ((max w h : Nat) : ℚ)) * (w : ℚ) := by ring
  constructor
  · nlinarith [e1, e2, e3, e4, key]
  · nlinarith [e1, e2, e3, e4, key]

/-- Witness for C4's amended theorem at a 3 x 2 input: outputs positive, the
longest edge 1024, and the cross-ratio error within (3 + 2)/2. -/
theorem C4_witness :
    1 ≤ (resize 3 2).1 ∧ 1 ≤ (resize 3 2).2
    ∧ max (resize 3 2).1 (resize 3 2).2 = 1024
    ∧ |((resize 3 2).1 : ℚ) * ((2 : Nat) : ℚ) - ((resize 3 2).2 : ℚ) * ((3 : Nat) : ℚ)|
        ≤ (((3 : Nat) : ℚ) + ((2 : Nat) : ℚ)) / 2 := by
  obtain ⟨h1, h2, h3, h4⟩ := C4_resize_contract 3 2 (by norm_num) (by norm_num)
  exact ⟨h1, h2, h3, h4 (by norm_num)⟩

end App
